import Mathlib

/-!
Verification of the feed ranking and serving engine of the Sourced backend
(src/backend/routers/feed.py) against its natural-language specification.

The Python source is shallowly embedded: dictionaries become structures,
floats become rationals, the Supabase data store becomes an explicit
environment of query-result functions, exceptions become Except values,
and the uniform draw of random.random() * 100 becomes an explicit rational
(or, for distribution statements, real) parameter.
-/

namespace Sourced

/-- The viewer preference profile computed by get_user_preference_signals
(feed.py lines 106-158).  The signals dictionary holds the followed user
ids, the engaged creator ids, the recent engaged post ids, and the average
view time in milliseconds. -/
structure Signals where
  followed_users : List String
  engaged_creators : List String
  recent_interactions : List String
  avg_view_time : ℚ
  deriving Repr, DecidableEq

/-- The all-empty profile, the initial value of the signals dictionary
(feed.py lines 108-113). -/
def emptySignals : Signals :=
  { followed_users := []
    engaged_creators := []
    recent_interactions := []
    avg_view_time := 0 }

/-- Strategy weight list built from the signals (feed.py lines 182-191):
followed with weight 40 when the followed set is non-empty, engaged
creators with weight 30 when that list is non-empty, then always popular
with weight 20 and discovery with weight 10. -/
def buildStrategies (signals : Signals) : List (String × ℚ) :=
  (if signals.followed_users ≠ [] then [("followed", (40 : ℚ))] else []) ++
  (if signals.engaged_creators ≠ [] then [("engaged_creators", (30 : ℚ))] else []) ++
  [("popular", (20 : ℚ)), ("discovery", (10 : ℚ))]

/-- The loop of the weighted random selection (feed.py lines 195-202):
walk the list accumulating weights and stop at the first strategy whose
cumulative weight is at least the draw; when the loop finishes without a
hit, the initial value discovery stays selected. -/
def selectStrategyGo (rand : ℚ) (cumulative : ℚ) : List (String × ℚ) → String
  | [] => "discovery"
  | (s, w) :: rest =>
      if rand ≤ cumulative + w then s else selectStrategyGo rand (cumulative + w) rest

/-- Weighted random strategy selection (feed.py lines 193-202).  The draw
rand stands for random.random() * 100, a uniform value in the interval
from 0 inclusive to 100 exclusive. -/
def selectStrategy (strategies : List (String × ℚ)) (rand : ℚ) : String :=
  selectStrategyGo rand 0 strategies

/-- Proposition-level rendering of the selection loop over a real-valued
draw, used to state distribution facts: selectsGo rand c s l holds exactly
when the loop started with cumulative weight c on list l selects s. -/
def selectsGo (rand : ℝ) (c : ℚ) (s : String) : List (String × ℚ) → Prop
  | [] => s = "discovery"
  | (name, w) :: rest =>
      (rand ≤ ((c + w : ℚ) : ℝ) ∧ s = name) ∨
      (¬ rand ≤ ((c + w : ℚ) : ℝ) ∧ selectsGo rand (c + w) s rest)

/-- The strategy selection relation over a real-valued draw. -/
def selects (strategies : List (String × ℚ)) (rand : ℝ) (s : String) : Prop :=
  selectsGo rand 0 s strategies

/-- The recency multiplier of the engagement score (feed.py line 98):
one over one plus the age in hours divided by twenty-four. -/
def recency_multiplier (hours_old : ℚ) : ℚ :=
  1 / (1 + hours_old / 24)

/-- The raw owner dictionary of the profiles projection; an optional field
stands for a key that may be missing from the dictionary, read with a
default by dict.get (feed.py lines 320-324). -/
structure OwnerDict where
  id : Option String
  username : Option String
  avatar_url : Option String
  is_verified : Option Bool
  deriving Repr, DecidableEq

/-- The owner projection joined onto a post row, which arrives either as a
singular object or as a collection, depending on the join shape (feed.py
lines 316-318). -/
inductive OwnerProj where
  | obj (d : OwnerDict)
  | coll (l : List OwnerDict)
  deriving Repr, DecidableEq

/-- A candidate post row as fetched by the candidate query (feed.py
lines 205-208): id, like and comment counts, creation time as an epoch
value in seconds, and the joined owner projection. -/
structure PostRow where
  id : String
  like_count : ℤ
  comment_count : ℤ
  created_at : ℚ
  profiles : OwnerProj
  deriving Repr, DecidableEq

/-- Engagement score for ranking posts (feed.py lines 90-103): likes count
one point and comments three, multiplied by the recency multiplier of the
age of the post in hours, computed from the creation time and the current
time, both epoch values in seconds. -/
def calculate_engagement_score (now : ℚ) (post_data : PostRow) : ℚ :=
  let like_count := post_data.like_count
  let comment_count := post_data.comment_count
  let hours_old := (now - post_data.created_at) / 3600
  let rm := recency_multiplier hours_old
  (like_count + comment_count * 3) * rm

/-- The normalized owner fields of the response payload (feed.py
lines 70-74). -/
structure FeedOwner where
  id : String
  username : String
  avatar_url : Option String
  is_verified : Bool
  deriving Repr, DecidableEq

/-- Owner-data normalization (feed.py lines 315-325): a collection shape
is replaced by its first element, or by an empty dictionary when the
collection is empty; each field is then read with a default, empty id and
username, no avatar, and an unverified flag. -/
def formatOwner : OwnerProj → FeedOwner
  | OwnerProj.obj d =>
      { id := d.id.getD ""
        username := d.username.getD ""
        avatar_url := d.avatar_url
        is_verified := d.is_verified.getD false }
  | OwnerProj.coll [] =>
      { id := "", username := "", avatar_url := none, is_verified := false }
  | OwnerProj.coll (d :: _) =>
      { id := d.id.getD ""
        username := d.username.getD ""
        avatar_url := d.avatar_url
        is_verified := d.is_verified.getD false }

/-- A post-view history row as returned by the post_views query (feed.py
lines 123-125); optional fields stand for keys that dict.get may find
missing. -/
structure ViewRow where
  post_id : String
  time_spent_ms : Option ℤ
  interacted : Option Bool
  deriving Repr, DecidableEq

/-- The sub-query results the signal aggregator reads, any of which may
raise (feed.py lines 117-141): the followed ids of the viewer, the recent
view rows of the viewer, and the owner ids of a given list of engaged post
ids. -/
structure SignalsDB where
  followers : Except Unit (List String)
  post_views : Except Unit (List ViewRow)
  engaged_owners : List String → Except Unit (List String)

/-- First-occurrence order of the keys of the creator-frequency
dictionary (feed.py lines 144-147): Python dictionaries iterate keys in
insertion order, so each creator appears once, at its first position. -/
def firstOccurrences : List String → List String
  | [] => []
  | x :: xs => x :: firstOccurrences (xs.filter (fun y => y ≠ x))
termination_by l => l.length
decreasing_by
  simpa using Nat.lt_succ_of_le (List.length_filter_le _ xs)

/-- Creators of engaged posts ranked by descending engagement frequency
(feed.py lines 143-151): the keys of the count dictionary, stably sorted
by count with the largest first. -/
def rankedCreators (owners : List String) : List String :=
  (firstOccurrences owners).mergeSort (fun a b => owners.count b ≤ owners.count a)

/-- One view row counts as engaged when its interacted flag is set or its
dwell time exceeds 3000 milliseconds (feed.py lines 133-136). -/
def isEngaged (v : ViewRow) : Bool :=
  v.interacted.getD false || decide (v.time_spent_ms.getD 0 > 3000)

/-- The signal aggregator (feed.py lines 106-158).  The signals dictionary
starts all empty; each sub-query fills further fields in place; an
exception at any point is caught by the surrounding handler, which returns
the dictionary as mutated so far. -/
def get_user_preference_signals (db : SignalsDB) : Signals :=
  match db.followers with
  | Except.error _ => emptySignals
  | Except.ok fu =>
    let s1 := { emptySignals with followed_users := fu }
    match db.post_views with
    | Except.error _ => s1
    | Except.ok views =>
      if views = [] then s1
      else
        let total : ℤ := (views.map (fun v => v.time_spent_ms.getD 0)).sum
        let s2 := { s1 with avg_view_time := (total : ℚ) / views.length }
        let engaged_posts := (views.filter isEngaged).map (fun v => v.post_id)
        if engaged_posts = [] then { s2 with recent_interactions := [] }
        else
          match db.engaged_owners (engaged_posts.take 50) with
          | Except.error _ => s2
          | Except.ok owners =>
            let s3 :=
              if owners ≠ [] then { s2 with engaged_creators := rankedCreators owners }
              else s2
            { s3 with recent_interactions := engaged_posts.take 20 }

/-- The request body of the serving endpoint (feed.py lines 46-49). -/
structure FeedRequest where
  exclude_ids : List String
  is_initial : Bool
  user_id : Option String
  deriving Repr, DecidableEq

/-- The strategy predicate attached to the candidate query (feed.py
lines 210-218): an owner-id inclusion filter, a like-count threshold, or
no filter at all for discovery. -/
inductive StrategyFilter where
  | ownerIn (owners : List String)
  | likeCountGte (n : ℤ)
  | noFilter
  deriving Repr, DecidableEq

/-- The per-id not-equal exclusion filters the fetch applies (feed.py
lines 220-225): every listed id when the list has between 1 and 20
entries, none otherwise. -/
def appliedExclusions (exclude_ids : List String) : List String :=
  if 0 < exclude_ids.length ∧ exclude_ids.length ≤ 20 then exclude_ids else []

/-- The shape of a candidate query sent to the store: the strategy
predicate, the per-id not-equal exclusion filters, and the row limit;
ordering is always newest first (feed.py lines 204-229). -/
structure FetchQuery where
  strategyFilter : StrategyFilter
  exclusions : List String
  fetchLimit : ℕ
  deriving Repr, DecidableEq

/-- The strategy-filtered candidate query (feed.py lines 204-229):
followed filters on the first 50 followed owners, engaged creators on the
first 30 engaged creators, popular on at least one like, discovery on
nothing; the limit is 20 for non-discovery strategies and 50 for
discovery. -/
def buildQuery (signals : Signals) (strategy : String) (exclude_ids : List String) :
    FetchQuery :=
  let filter :=
    if strategy = "followed" ∧ signals.followed_users ≠ [] then
      StrategyFilter.ownerIn (signals.followed_users.take 50)
    else if strategy = "engaged_creators" ∧ signals.engaged_creators ≠ [] then
      StrategyFilter.ownerIn (signals.engaged_creators.take 30)
    else if strategy = "popular" then StrategyFilter.likeCountGte 1
    else StrategyFilter.noFilter
  { strategyFilter := filter
    exclusions := appliedExclusions exclude_ids
    fetchLimit := if strategy ≠ "discovery" then 20 else 50 }

/-- The relaxed fallback query (feed.py lines 237-248): no strategy
filter, the same exclusion rule, limit 50. -/
def fallbackQuery (exclude_ids : List String) : FetchQuery :=
  { strategyFilter := StrategyFilter.noFilter
    exclusions := appliedExclusions exclude_ids
    fetchLimit := 50 }

/-- The environment a serving request runs against: the current time, the
per-viewer signal sub-query results, the uniform draw and the uniform pick
consumed by the invocation at each recursion depth, and the rows the store
returns for each candidate query. -/
structure FeedEnv where
  now : ℚ
  signalsDB : String → SignalsDB
  rand : ℕ → ℚ
  choiceIdx : ℕ → ℕ
  fetch : FetchQuery → List PostRow

/-- A store that honors row limits: a query never returns more rows than
its limit. -/
def honestStore (env : FeedEnv) : Prop :=
  ∀ q : FetchQuery, (env.fetch q).length ≤ q.fetchLimit

/-- The serving response (feed.py lines 258 and 341-348): either the
terminal payload with a null post and the message that no posts are
available, or a selected post together with its normalized owner and the
algorithm-info fields strategy, candidates evaluated, and total
fetched. -/
inductive FeedResponse where
  | noPosts
  | success (post : PostRow) (owner : FeedOwner) (strategy : String)
      (candidates_evaluated : ℕ) (total_fetched : ℕ)
  deriving Repr, DecidableEq

/-- Placeholder row used only for the unreachable pick from an empty
candidate list. -/
def defaultPost : PostRow :=
  { id := "", like_count := 0, comment_count := 0, created_at := 0
    profiles := OwnerProj.coll [] }

/-- The signals a request computes (feed.py lines 176-179): the default
dictionary when no viewer id is present, the aggregator result
otherwise. -/
def requestSignals (env : FeedEnv) (request : FeedRequest) : Signals :=
  match request.user_id with
  | none => emptySignals
  | some uid => get_user_preference_signals (env.signalsDB uid)

/-- The strategy an invocation at recursion depth d selects (feed.py
lines 181-202). -/
def chosenStrategy (env : FeedEnv) (request : FeedRequest) (d : ℕ) : String :=
  selectStrategy (buildStrategies (requestSignals env request)) (env.rand d)

/-- The outcome of one serving invocation: the response, the number of
recursive self-invocations made, and, for a successful response, the query
whose rows were scored. -/
structure ServeResult where
  response : FeedResponse
  recursions : ℕ
  servedBy : Option FetchQuery
  deriving Repr, DecidableEq

/-- The query whose rows an invocation ends up scoring (feed.py
lines 204-249): the strategy-filtered query, unless it returned no rows
for a non-discovery strategy, in which case the relaxed fallback query. -/
def servedQueryOf (env : FeedEnv) (request : FeedRequest) (d : ℕ) : FetchQuery :=
  let signals := requestSignals env request
  let selected_strategy := chosenStrategy env request d
  let primary := buildQuery signals selected_strategy request.exclude_ids
  if env.fetch primary = [] ∧ selected_strategy ≠ "discovery" then
    fallbackQuery request.exclude_ids
  else primary

/-- The scoring, ranking, and picking stage of a serving invocation whose
served query returned rows (feed.py lines 260-348): score every fetched
row, sort by descending score, pick uniformly among the top five, and
report the strategy, the number of candidates evaluated, and the total
fetched in the algorithm info. -/
def successResult (env : FeedEnv) (request : FeedRequest) (d : ℕ) : ServeResult :=
  let servedQuery := servedQueryOf env request d
  let rows2 := env.fetch servedQuery
  let scored_posts := rows2.map (fun p => (p, calculate_engagement_score env.now p))
  let sorted := scored_posts.mergeSort (fun a b => decide (b.2 ≤ a.2))
  let top_candidates := sorted.take (min 5 sorted.length)
  let pick := env.choiceIdx d % top_candidates.length
  let selected_post := (top_candidates.getD pick (defaultPost, 0)).1
  { response :=
      FeedResponse.success selected_post (formatOwner selected_post.profiles)
        (chosenStrategy env request d) scored_posts.length rows2.length
    recursions := 0
    servedBy := some servedQuery }

/-- The serving pipeline of the endpoint posting to feed/next (feed.py
lines 161-348).  Signals are computed when a viewer id is present; a
strategy is drawn; the strategy-filtered fetch runs, then the relaxed
fallback fetch when it returned no rows and the strategy was not
discovery; with still no rows the pipeline recurses once with an empty
exclusion list when the exclusion list was non-empty and otherwise returns
the terminal payload; with rows, candidates are scored, sorted by
descending score, and one of the top five is picked uniformly. -/
def feedNextAux (env : FeedEnv) (request : FeedRequest) (d : ℕ) : ServeResult :=
  if env.fetch (servedQueryOf env request d) = [] then
    if h : 0 < request.exclude_ids.length then
      let inner :=
        feedNextAux env
          { exclude_ids := [], is_initial := false, user_id := request.user_id } (d + 1)
      { response := inner.response, recursions := inner.recursions + 1
        servedBy := inner.servedBy }
    else { response := FeedResponse.noPosts, recursions := 0, servedBy := none }
  else successResult env request d
termination_by request.exclude_ids.length
decreasing_by simpa using h

/-- The response of the serving endpoint (feed.py lines 161-348). -/
def get_next_feed_post (env : FeedEnv) (request : FeedRequest) : FeedResponse :=
  (feedNextAux env request 0).response

/-- The number of recursive self-invocations a serving request makes. -/
def recirculationCount (env : FeedEnv) (request : FeedRequest) : ℕ :=
  (feedNextAux env request 0).recursions

/-- A stored view-log row (feed.py lines 365-371). -/
structure PostView where
  user_id : String
  post_id : String
  viewed_at : ℚ
  time_spent_ms : ℤ
  interacted : Bool
  deriving Repr, DecidableEq

/-- The request body of the view-logging endpoint (feed.py lines 52-56). -/
structure LogViewRequest where
  post_id : String
  time_spent : ℤ
  interacted : Bool
  user_id : String
  deriving Repr, DecidableEq

/-- Whether a stored row carries the given (viewer id, post id) key. -/
def keyMatches (u p : String) (r : PostView) : Bool :=
  decide (r.user_id = u ∧ r.post_id = p)

/-- Modelled from the spec: the store-side upsert with conflict target
(user_id, post_id) that feed.py lines 373-376 request from the data store
and that is not part of the repository source.  Following section 4.6 of
the spec, the upsert is keyed by the (viewer id, post id) pair and
overwrites the prior dwell time, interaction flag, and timestamp for that
pair in place; a pair not yet present is inserted. -/
def upsertView (store : List PostView) (row : PostView) : List PostView :=
  if store.any (keyMatches row.user_id row.post_id) then
    store.map (fun r => if keyMatches row.user_id row.post_id r then row else r)
  else store ++ [row]

/-- The view logger (feed.py lines 355-382): build the row from the
request and the current timestamp and upsert it with conflict target
(user_id, post_id). -/
def log_post_view (store : List PostView) (request : LogViewRequest) (now : ℚ) :
    List PostView :=
  upsertView store
    { user_id := request.user_id, post_id := request.post_id, viewed_at := now
      time_spent_ms := request.time_spent, interacted := request.interacted }

/-- The stored rows carrying the given (viewer id, post id) key. -/
def rowsFor (store : List PostView) (u p : String) : List PostView :=
  store.filter (keyMatches u p)

/-- A store holds at most one row per (viewer id, post id) pair. -/
def uniquePerKey (store : List PostView) : Prop :=
  ∀ u p, (rowsFor store u p).length ≤ 1

/-! ## Helper lemmas -/

lemma recency_multiplier_pos {h : ℚ} (hh : 0 ≤ h) : 0 < recency_multiplier h := by
  have hq : (0 : ℚ) ≤ h / 24 := div_nonneg hh (by norm_num)
  have h1 : (0 : ℚ) < 1 + h / 24 := by linarith
  unfold recency_multiplier
  exact one_div_pos.mpr h1

lemma recency_multiplier_lt {x y : ℚ} (hx : 0 ≤ x) (hxy : x < y) :
    recency_multiplier y < recency_multiplier x := by
  have hx1 : (0 : ℚ) < 1 + x / 24 := by
    have : (0 : ℚ) ≤ x / 24 := div_nonneg hx (by norm_num)
    linarith
  unfold recency_multiplier
  exact one_div_lt_one_div_of_lt hx1 (by linarith)

lemma recency_multiplier_le {x y : ℚ} (hx : 0 ≤ x) (hxy : x ≤ y) :
    recency_multiplier y ≤ recency_multiplier x := by
  rcases eq_or_lt_of_le hxy with h | h
  · rw [h]
  · exact le_of_lt (recency_multiplier_lt hx h)

/-- A row with the given like count, comment count, and creation time,
used to state score comparisons between otherwise identical posts. -/
def mkPost (like_count comment_count : ℤ) (created_at : ℚ) : PostRow :=
  { id := "", like_count := like_count, comment_count := comment_count
    created_at := created_at, profiles := OwnerProj.coll [] }

lemma score_mkPost (now : ℚ) (l c : ℤ) (t : ℚ) :
    calculate_engagement_score now (mkPost l c t) =
      ((l : ℚ) + (c : ℚ) * 3) * recency_multiplier ((now - t) / 3600) := rfl

lemma feedNextAux_eq (env : FeedEnv) (request : FeedRequest) (d : ℕ) :
    feedNextAux env request d =
      if env.fetch (servedQueryOf env request d) = [] then
        if 0 < request.exclude_ids.length then
          { response :=
              (feedNextAux env
                { exclude_ids := [], is_initial := false
                  user_id := request.user_id } (d + 1)).response
            recursions :=
              (feedNextAux env
                { exclude_ids := [], is_initial := false
                  user_id := request.user_id } (d + 1)).recursions + 1
            servedBy :=
              (feedNextAux env
                { exclude_ids := [], is_initial := false
                  user_id := request.user_id } (d + 1)).servedBy }
        else { response := FeedResponse.noPosts, recursions := 0, servedBy := none }
      else successResult env request d := by
  rw [feedNextAux]
  simp only [dite_eq_ite]

lemma feedNextAux_of_empty (env : FeedEnv) (i : Bool) (u : Option String) (d : ℕ) :
    feedNextAux env { exclude_ids := [], is_initial := i, user_id := u } d =
      if env.fetch (servedQueryOf env { exclude_ids := [], is_initial := i, user_id := u } d)
          = [] then
        { response := FeedResponse.noPosts, recursions := 0, servedBy := none }
      else successResult env { exclude_ids := [], is_initial := i, user_id := u } d := by
  rw [feedNextAux_eq]
  simp only [List.length_nil, lt_self_iff_false, if_false]

lemma recursions_of_empty (env : FeedEnv) (i : Bool) (u : Option String) (d : ℕ) :
    (feedNextAux env { exclude_ids := [], is_initial := i, user_id := u } d).recursions
      = 0 := by
  rw [feedNextAux_of_empty]
  split <;> rfl

lemma successResult_inv (env : FeedEnv) (henv : honestStore env)
    (request : FeedRequest) (d : ℕ) {p : PostRow} {o : FeedOwner} {strat : String}
    {ce tf : ℕ}
    (hresp : (successResult env request d).response = FeedResponse.success p o strat ce tf) :
    ce = tf ∧ tf ≤ (servedQueryOf env request d).fetchLimit ∧
      ((strat ≠ "discovery" ∧ (servedQueryOf env request d).fetchLimit = 20) ∨
        (servedQueryOf env request d).fetchLimit = 50) := by
  unfold successResult at hresp
  dsimp only at hresp
  rw [FeedResponse.success.injEq] at hresp
  obtain ⟨-, -, hstrat, hce, htf⟩ := hresp
  refine ⟨?_, ?_, ?_⟩
  · rw [← hce, ← htf, List.length_map]
  · rw [← htf]
    exact henv _
  · unfold servedQueryOf
    dsimp only
    split
    · right
      rfl
    · by_cases hdisc : chosenStrategy env request d = "discovery"
      · right
        simp [buildQuery, hdisc]
      · left
        exact ⟨by rw [← hstrat]; exact hdisc, by simp [buildQuery, hdisc]⟩

lemma keyMatches_self (row : PostView) :
    keyMatches row.user_id row.post_id row = true := by
  simp [keyMatches]

lemma filter_length_upsert_map (s : List PostView) (row : PostView) (u p : String) :
    ((s.map (fun r => if keyMatches row.user_id row.post_id r then row else r)).filter
        (keyMatches u p)).length
      = (s.filter (keyMatches u p)).length := by
  rw [← List.countP_eq_length_filter, ← List.countP_eq_length_filter, List.countP_map]
  apply List.countP_congr
  intro a _
  by_cases ha : keyMatches row.user_id row.post_id a = true
  · simp only [Function.comp_apply, if_pos ha]
    simp only [keyMatches, decide_eq_true_eq] at ha
    simp [keyMatches, ha.1, ha.2]
  · simp only [Function.comp_apply, if_neg ha]

lemma uniquePerKey_upsert (store : List PostView) (row : PostView)
    (h : uniquePerKey store) : uniquePerKey (upsertView store row) := by
  intro u p
  unfold upsertView rowsFor
  split
  · rw [show
      ((store.map (fun r => if keyMatches row.user_id row.post_id r then row else r)).filter
          (keyMatches u p)).length
        = (store.filter (keyMatches u p)).length from filter_length_upsert_map store row u p]
    exact h u p
  case isFalse hany =>
    rw [List.filter_append, List.length_append]
    have hnone : ∀ a ∈ store, ¬ keyMatches row.user_id row.post_id a = true :=
      List.any_eq_false.mp (Bool.not_eq_true _ ▸ eq_false_of_ne_true hany)
    by_cases hk : keyMatches u p row = true
    · have hempty : store.filter (keyMatches u p) = [] := by
        rw [List.filter_eq_nil_iff]
        intro a ha
        simp only [keyMatches, decide_eq_true_eq] at hk ⊢
        intro hcon
        exact hnone a ha (by
          simp only [keyMatches, decide_eq_true_eq]
          rw [hcon.1, hcon.2, ← hk.1, ← hk.2]
          exact ⟨rfl, rfl⟩)
      simp [hempty, hk]
    · simp [hk]
      have := h u p
      unfold rowsFor at this
      omega

lemma filter_map_upsert_self (s : List PostView) (row : PostView)
    (h : (s.filter (keyMatches row.user_id row.post_id)).length ≤ 1)
    (hany : s.any (keyMatches row.user_id row.post_id) = true) :
    (s.map (fun r => if keyMatches row.user_id row.post_id r then row else r)).filter
      (keyMatches row.user_id row.post_id) = [row] := by
  induction s with
  | nil => simp at hany
  | cons a t ih =>
    by_cases ha : keyMatches row.user_id row.post_id a = true
    · have htail : ∀ b ∈ t, ¬ keyMatches row.user_id row.post_id b = true := by
        rw [List.filter_cons_of_pos ha, List.length_cons] at h
        intro b hb hcon
        have hmem : b ∈ t.filter (keyMatches row.user_id row.post_id) :=
          List.mem_filter.mpr ⟨hb, hcon⟩
        have hnil : t.filter (keyMatches row.user_id row.post_id) = [] :=
          List.length_eq_zero.mp (by omega)
        rw [hnil] at hmem
        exact List.not_mem_nil b hmem
      have htail2 :
          (t.map (fun r => if keyMatches row.user_id row.post_id r then row else r)).filter
            (keyMatches row.user_id row.post_id) = [] := by
        rw [List.filter_eq_nil_iff]
        intro b hb
        obtain ⟨c, hc, rfl⟩ := List.mem_map.mp hb
        rw [if_neg (htail c hc)]
        exact htail c hc
      rw [List.map_cons, if_pos ha, List.filter_cons_of_pos (keyMatches_self row), htail2]
    · have hany2 : t.any (keyMatches row.user_id row.post_id) = true := by
        simp only [List.any_cons, ha, Bool.false_or] at hany
        exact hany
      have h2 : (t.filter (keyMatches row.user_id row.post_id)).length ≤ 1 := by
        rw [List.filter_cons_of_neg ha] at h
        exact h
      rw [List.map_cons, if_neg ha, List.filter_cons_of_neg ha]
      exact ih h2 hany2

lemma rowsFor_upsert_self (store : List PostView) (row : PostView)
    (h : (rowsFor store row.user_id row.post_id).length ≤ 1) :
    rowsFor (upsertView store row) row.user_id row.post_id = [row] := by
  unfold upsertView rowsFor
  split
  case isTrue hany =>
    exact filter_map_upsert_self store row h hany
  case isFalse hany =>
    have hnone : ∀ a ∈ store, ¬ keyMatches row.user_id row.post_id a = true :=
      List.any_eq_false.mp (Bool.not_eq_true _ ▸ eq_false_of_ne_true hany)
    have hempty : store.filter (keyMatches row.user_id row.post_id) = [] := by
      rw [List.filter_eq_nil_iff]
      exact hnone
    rw [List.filter_append, hempty, List.nil_append,
      List.filter_cons_of_pos (keyMatches_self row)]
    rfl

/-- The set of real draws in the code's draw space, the interval from 0
inclusive to 100 exclusive, on which the selection loop picks the given
strategy.  The draw stands for random.random() * 100 (feed.py line 194),
whose idealization is a uniform distribution on that interval, so the
volume of this set over 100 is the probability of the strategy. -/
def drawSet (strategies : List (String × ℚ)) (s : String) : Set ℝ :=
  { r ∈ Set.Ico (0 : ℝ) 100 | selects strategies r s }

/-- A profile with a non-empty followed set and a non-empty
engaged-creator list, making all four strategies eligible. -/
def fullSignals : Signals :=
  { followed_users := ["a"], engaged_creators := ["b"]
    recent_interactions := [], avg_view_time := 0 }

lemma buildStrategies_full :
    buildStrategies fullSignals
      = [("followed", 40), ("engaged_creators", 30), ("popular", 20), ("discovery", 10)] := by
  simp [buildStrategies, fullSignals]

lemma buildStrategies_empty :
    buildStrategies emptySignals = [("popular", 20), ("discovery", 10)] := by
  simp [buildStrategies, emptySignals]

lemma drawSet_full_followed :
    drawSet [("followed", 40), ("engaged_creators", 30), ("popular", 20), ("discovery", 10)]
      "followed" = Set.Icc (0 : ℝ) 40 := by
  ext r
  simp [drawSet, selects, selectsGo, Set.mem_sep_iff, Set.mem_Ico]
  intro h40 h0
  linarith

lemma drawSet_full_engaged :
    drawSet [("followed", 40), ("engaged_creators", 30), ("popular", 20), ("discovery", 10)]
      "engaged_creators" = Set.Ioc (40 : ℝ) 70 := by
  ext r
  simp [drawSet, selects, selectsGo, Set.mem_sep_iff, Set.mem_Ico]
  norm_num
  intro h40 h70
  exact ⟨by linarith, by linarith⟩

lemma drawSet_full_popular :
    drawSet [("followed", 40), ("engaged_creators", 30), ("popular", 20), ("discovery", 10)]
      "popular" = Set.Ioc (70 : ℝ) 90 := by
  ext r
  simp [drawSet, selects, selectsGo, Set.mem_sep_iff, Set.mem_Ico]
  norm_num
  constructor
  · rintro ⟨⟨-, -⟩, -, h70, h90⟩
    exact ⟨h70, h90⟩
  · rintro ⟨h70, h90⟩
    exact ⟨⟨by linarith, by linarith⟩, by linarith, h70, h90⟩

lemma drawSet_full_discovery :
    drawSet [("followed", 40), ("engaged_creators", 30), ("popular", 20), ("discovery", 10)]
      "discovery" = Set.Ioo (90 : ℝ) 100 := by
  ext r
  simp [drawSet, selects, selectsGo, Set.mem_sep_iff, Set.mem_Ico]
  norm_num
  constructor
  · rintro ⟨⟨-, h100⟩, -, -, h90, -⟩
    exact ⟨h90, h100⟩
  · rintro ⟨h90, h100⟩
    exact ⟨⟨by linarith, h100⟩, by linarith, by linarith, h90, Or.inl (by linarith)⟩

lemma drawSet_empty_popular :
    drawSet [("popular", 20), ("discovery", 10)] "popular" = Set.Icc (0 : ℝ) 20 := by
  ext r
  simp [drawSet, selects, selectsGo, Set.mem_sep_iff, Set.mem_Ico]
  intro h20 h0
  linarith

lemma drawSet_empty_discovery :
    drawSet [("popular", 20), ("discovery", 10)] "discovery" = Set.Ioo (20 : ℝ) 100 := by
  ext r
  simp [drawSet, selects, selectsGo, Set.mem_sep_iff, Set.mem_Ico]
  norm_num
  constructor
  · rintro ⟨⟨-, h100⟩, h20, -⟩
    exact ⟨h20, h100⟩
  · rintro ⟨h20, h100⟩
    exact ⟨⟨by linarith, h100⟩, h20, le_or_lt r 30⟩

/-- A concrete post with no likes and no comments, created at epoch
zero. -/
def stalePost : PostRow :=
  { id := "p0", like_count := 0, comment_count := 0, created_at := 0
    profiles := OwnerProj.coll [] }

/-- A signal environment whose followers sub-query succeeds and whose
post-views sub-query raises. -/
def partialFailureDB : SignalsDB :=
  { followers := Except.ok ["creatorA"]
    post_views := Except.error ()
    engaged_owners := fun _ => Except.ok [] }

/-- A serving environment whose store returns no rows for any query. -/
def emptyStoreEnv : FeedEnv :=
  { now := 0
    signalsDB := fun _ =>
      { followers := Except.ok [], post_views := Except.ok []
        engaged_owners := fun _ => Except.ok [] }
    rand := fun _ => 0
    choiceIdx := fun _ => 0
    fetch := fun _ => [] }

/-- A post row returned by the one-row witness store. -/
def onePost : PostRow :=
  { id := "w", like_count := 1, comment_count := 0, created_at := 0
    profiles := OwnerProj.obj
      { id := some "o", username := some "owner", avatar_url := none
        is_verified := some true } }

/-- A serving environment whose store returns one row for every query with
a positive limit. -/
def oneRowEnv : FeedEnv :=
  { now := 0
    signalsDB := fun _ =>
      { followers := Except.ok [], post_views := Except.ok []
        engaged_owners := fun _ => Except.ok [] }
    rand := fun _ => 0
    choiceIdx := fun _ => 0
    fetch := fun q => if q.fetchLimit = 0 then [] else [onePost] }

lemma oneRowEnv_honest : honestStore oneRowEnv := by
  intro q
  by_cases h : q.fetchLimit = 0
  · simp [oneRowEnv, h]
  · simp only [oneRowEnv, if_neg h, List.length_cons, List.length_nil]
    omega

lemma oneRow_chosen :
    chosenStrategy oneRowEnv { exclude_ids := [], is_initial := false, user_id := none } 0
      = "popular" := by
  norm_num [chosenStrategy, requestSignals, buildStrategies, emptySignals, selectStrategy,
    selectStrategyGo, oneRowEnv]

lemma oneRow_buildQuery :
    buildQuery emptySignals "popular" []
      = { strategyFilter := StrategyFilter.likeCountGte 1, exclusions := []
          fetchLimit := 20 } := by
  simp [buildQuery, emptySignals, appliedExclusions]

lemma oneRow_fetch :
    oneRowEnv.fetch
        { strategyFilter := StrategyFilter.likeCountGte 1, exclusions := []
          fetchLimit := 20 }
      = [onePost] := by
  simp [oneRowEnv]

lemma oneRow_served :
    servedQueryOf oneRowEnv { exclude_ids := [], is_initial := false, user_id := none } 0
      = { strategyFilter := StrategyFilter.likeCountGte 1, exclusions := []
          fetchLimit := 20 } := by
  unfold servedQueryOf
  dsimp only
  rw [show requestSignals oneRowEnv { exclude_ids := [], is_initial := false, user_id := none }
      = emptySignals from rfl]
  rw [oneRow_chosen, oneRow_buildQuery, oneRow_fetch]
  simp

lemma oneRowEnv_response :
    get_next_feed_post oneRowEnv { exclude_ids := [], is_initial := false, user_id := none }
      = FeedResponse.success onePost
          { id := "o", username := "owner", avatar_url := none, is_verified := true }
          "popular" 1 1 := by
  have hne :
      ¬ oneRowEnv.fetch
          (servedQueryOf oneRowEnv
            { exclude_ids := [], is_initial := false, user_id := none } 0) = [] := by
    rw [oneRow_served]
    simp [oneRowEnv]
  unfold get_next_feed_post
  rw [feedNextAux_of_empty, if_neg hne]
  unfold successResult
  dsimp only
  rw [oneRow_served, oneRow_chosen, oneRow_fetch]
  simp [formatOwner, onePost, Nat.mod_one]

/-! ## Claim theorems -/

/-- C1 counterexample: with an empty preference profile only popular
(weight 20) and discovery (weight 10) are included, so the claim asserts a
draw space of width 30 and a popular probability of 20/30.  The code
instead draws on the interval from 0 to 100: the draw 50, which the claim
rules out, selects the default discovery, and the draw mass of popular is
20 out of 100 (probability 1/5), violating the claimed 2/3 - the equation
3 * mass(popular) = 2 * mass(draw space) required by probability 2/3
fails, as 60 is not 200. -/
theorem strategy_draw_counterexample :
    buildStrategies emptySignals = [("popular", 20), ("discovery", 10)] ∧
    selectStrategy (buildStrategies emptySignals) 50 = "discovery" ∧
    MeasureTheory.volume (drawSet (buildStrategies emptySignals) "popular") = 20 ∧
    3 * MeasureTheory.volume (drawSet (buildStrategies emptySignals) "popular")
      ≠ 2 * MeasureTheory.volume (Set.Ico (0 : ℝ) 100) := by
  refine ⟨buildStrategies_empty, ?_, ?_, ?_⟩
  · rw [buildStrategies_empty]
    norm_num [selectStrategy, selectStrategyGo]
  · rw [buildStrategies_empty, drawSet_empty_popular, Real.volume_Icc]
    norm_num
  · rw [buildStrategies_empty, drawSet_empty_popular, Real.volume_Icc, Real.volume_Ico]
    norm_num

/-- C1 amended: the selector draws uniformly on the interval from 0 to
100 regardless of which strategies are included and selects the first
strategy whose cumulative weight meets or exceeds the draw, defaulting to
discovery beyond the total included weight; each included strategy is
chosen with probability weight/100 and discovery also absorbs the
leftover mass.  With all four strategies eligible the draw masses are
exactly 40/30/20/10 out of 100; with only popular and discovery eligible
they are 20 and 80 out of 100. -/
theorem strategy_draw_distribution :
    buildStrategies fullSignals
        = [("followed", 40), ("engaged_creators", 30), ("popular", 20), ("discovery", 10)] ∧
    MeasureTheory.volume (drawSet (buildStrategies fullSignals) "followed") = 40 ∧
    MeasureTheory.volume (drawSet (buildStrategies fullSignals) "engaged_creators") = 30 ∧
    MeasureTheory.volume (drawSet (buildStrategies fullSignals) "popular") = 20 ∧
    MeasureTheory.volume (drawSet (buildStrategies fullSignals) "discovery") = 10 ∧
    MeasureTheory.volume (drawSet (buildStrategies emptySignals) "popular") = 20 ∧
    MeasureTheory.volume (drawSet (buildStrategies emptySignals) "discovery") = 80 ∧
    MeasureTheory.volume (Set.Ico (0 : ℝ) 100) = 100 := by
  refine ⟨buildStrategies_full, ?_, ?_, ?_, ?_, ?_, ?_, ?_⟩
  · rw [buildStrategies_full, drawSet_full_followed, Real.volume_Icc]
    norm_num
  · rw [buildStrategies_full, drawSet_full_engaged, Real.volume_Ioc]
    norm_num
  · rw [buildStrategies_full, drawSet_full_popular, Real.volume_Ioc]
    norm_num
  · rw [buildStrategies_full, drawSet_full_discovery, Real.volume_Ioo]
    norm_num
  · rw [buildStrategies_empty, drawSet_empty_popular, Real.volume_Icc]
    norm_num
  · rw [buildStrategies_empty, drawSet_empty_discovery, Real.volume_Ioo]
    norm_num
  · rw [Real.volume_Ico]
    norm_num

/-- C2 counterexample: when the followers sub-query has already filled the
followed set and the post-views sub-query then raises, the aggregator
returns the partially computed profile, whose followed set is non-empty,
not the all-empty profile the claim requires. -/
theorem signals_partial_on_midway_failure :
    get_user_preference_signals partialFailureDB =
      { followed_users := ["creatorA"], engaged_creators := []
        recent_interactions := [], avg_view_time := 0 } ∧
    get_user_preference_signals partialFailureDB ≠ emptySignals := by
  refine ⟨rfl, ?_⟩
  decide

/-- C2 amended: a failing sub-query makes the aggregator return the
profile as computed so far — fields filled before the failure keep their
values and the remaining fields stay empty or zero — rather than a fully
recomputed all-empty profile; the all-empty profile results exactly when
the first sub-query fails.  The aggregator is a total function, so the
serving request does not abort. -/
theorem signals_failure_fallback :
    (∀ db : SignalsDB, db.followers = Except.error () →
        get_user_preference_signals db = emptySignals) ∧
    (∀ (db : SignalsDB) (fu : List String), db.followers = Except.ok fu →
        db.post_views = Except.error () →
        get_user_preference_signals db = { emptySignals with followed_users := fu }) := by
  constructor
  · intro db h
    unfold get_user_preference_signals
    rw [h]
  · intro db fu h1 h2
    unfold get_user_preference_signals
    rw [h1, h2]

/-- Witness for the amended C2 at the concrete partially failing
environment. -/
theorem signals_failure_fallback_witness :
    get_user_preference_signals partialFailureDB =
      { emptySignals with followed_users := ["creatorA"] } :=
  signals_failure_fallback.2 partialFailureDB ["creatorA"] rfl rfl

/-- C3: the engagement score equals likes plus three times comments, all
multiplied by the recency multiplier one over one plus the age in hours
divided by twenty-four; the multiplier is exactly one at age zero hours,
exactly one half at age twenty-four hours, and strictly positive at every
finite nonnegative age. -/
theorem engagement_score_spec :
    (∀ (now : ℚ) (post : PostRow),
        calculate_engagement_score now post =
          ((post.like_count : ℚ) + (post.comment_count : ℚ) * 3) *
            recency_multiplier ((now - post.created_at) / 3600)) ∧
    (∀ hours_old : ℚ, recency_multiplier hours_old = 1 / (1 + hours_old / 24)) ∧
    recency_multiplier 0 = 1 ∧
    recency_multiplier 24 = 1 / 2 ∧
    (∀ hours_old : ℚ, 0 ≤ hours_old → 0 < recency_multiplier hours_old) := by
  refine ⟨fun now post => rfl, fun h => rfl, by norm_num [recency_multiplier],
    by norm_num [recency_multiplier], fun h hh => recency_multiplier_pos hh⟩

/-- Witness for C3 at a concrete age of forty-eight hours. -/
theorem engagement_score_spec_witness : 0 < recency_multiplier 48 :=
  engagement_score_spec.2.2.2.2 48 (by norm_num)

/-- C4: both the strategy-filtered query and the relaxed fallback query
apply the per-id not-equal exclusion filters computed by the exclusion
rule, which keeps each listed id exactly when the list has between 1 and
20 entries and applies no filter at all for 21 or more entries. -/
theorem exclusion_filter_rule (ids : List String) :
    (∀ (signals : Signals) (strategy : String),
        (buildQuery signals strategy ids).exclusions = appliedExclusions ids) ∧
    (fallbackQuery ids).exclusions = appliedExclusions ids ∧
    (1 ≤ ids.length → ids.length ≤ 20 → appliedExclusions ids = ids) ∧
    (21 ≤ ids.length → appliedExclusions ids = []) := by
  refine ⟨fun _ _ => rfl, rfl, fun h1 h2 => ?_, fun h => ?_⟩
  · unfold appliedExclusions
    rw [if_pos ⟨h1, h2⟩]
  · unfold appliedExclusions
    rw [if_neg]
    rintro ⟨-, h2⟩
    omega

/-- Witness for C4 at the boundary lists of length 20 and 21. -/
theorem exclusion_filter_rule_witness :
    appliedExclusions (List.replicate 20 "p") = List.replicate 20 "p" ∧
    appliedExclusions (List.replicate 21 "p") = [] :=
  ⟨(exclusion_filter_rule (List.replicate 20 "p")).2.2.1 (by simp) (by simp),
   (exclusion_filter_rule (List.replicate 21 "p")).2.2.2 (by simp)⟩

/-- C5: with an empty exclusion list, when the strategy-filtered fetch and
the relaxed fallback fetch both return zero rows, the endpoint returns the
terminal no-posts payload, makes no recursive call, and raises no
error. -/
theorem terminal_empty_state (env : FeedEnv) (i : Bool) (u : Option String)
    (h1 : env.fetch
        (buildQuery (requestSignals env { exclude_ids := [], is_initial := i, user_id := u })
          (chosenStrategy env { exclude_ids := [], is_initial := i, user_id := u } 0) [])
        = [])
    (h2 : env.fetch (fallbackQuery []) = []) :
    get_next_feed_post env { exclude_ids := [], is_initial := i, user_id := u }
        = FeedResponse.noPosts ∧
      recirculationCount env { exclude_ids := [], is_initial := i, user_id := u } = 0 := by
  have hserved :
      env.fetch (servedQueryOf env { exclude_ids := [], is_initial := i, user_id := u } 0)
        = [] := by
    unfold servedQueryOf
    dsimp only
    split
    · exact h2
    · exact h1
  unfold get_next_feed_post recirculationCount
  rw [feedNextAux_of_empty, if_pos hserved]
  exact ⟨rfl, rfl⟩

/-- Witness for C5 at the concrete empty store. -/
theorem terminal_empty_state_witness :
    get_next_feed_post emptyStoreEnv
        { exclude_ids := [], is_initial := false, user_id := none }
        = FeedResponse.noPosts ∧
      recirculationCount emptyStoreEnv
        { exclude_ids := [], is_initial := false, user_id := none } = 0 :=
  terminal_empty_state emptyStoreEnv false none rfl rfl

/-- C6: every serving request re-invokes the pipeline at most once - the
recursive branch requires a non-empty exclusion list and always passes an
empty one, which cannot take that branch again.  Termination on every
input is witnessed by the pipeline being a total function of the
environment and the request. -/
theorem recirculation_depth_le_one (env : FeedEnv) (request : FeedRequest) :
    recirculationCount env request ≤ 1 := by
  unfold recirculationCount
  rw [feedNextAux_eq]
  split
  · split
    · simp [recursions_of_empty]
    · simp
  · simp [successResult]

/-- C7: the view logger's write is an upsert keyed on the (viewer id, post
id) pair.  First conjunct: any sequence of log-view calls preserves the
at-most-one-row-per-pair invariant.  Second conjunct: two calls for the
same pair leave exactly one row for that pair, carrying the second call's
dwell time, interaction flag, and timestamp. -/
theorem view_log_upsert :
    (∀ (store : List PostView) (calls : List (LogViewRequest × ℚ)),
        uniquePerKey store →
        uniquePerKey (calls.foldl (fun s c => log_post_view s c.1 c.2) store)) ∧
    (∀ (store : List PostView) (r1 r2 : LogViewRequest) (t1 t2 : ℚ),
        uniquePerKey store →
        r1.user_id = r2.user_id → r1.post_id = r2.post_id →
        r1.time_spent ≠ r2.time_spent →
        rowsFor (log_post_view (log_post_view store r1 t1) r2 t2) r2.user_id r2.post_id
          = [{ user_id := r2.user_id, post_id := r2.post_id, viewed_at := t2
               time_spent_ms := r2.time_spent, interacted := r2.interacted }]) := by
  constructor
  · intro store calls
    induction calls generalizing store with
    | nil => exact fun h => h
    | cons c cs ih =>
      intro h
      exact ih (log_post_view store c.1 c.2) (uniquePerKey_upsert store _ h)
  · intro store r1 r2 t1 t2 hstore _ _ _
    have h1 : uniquePerKey (log_post_view store r1 t1) :=
      uniquePerKey_upsert store _ hstore
    exact rowsFor_upsert_self (log_post_view store r1 t1)
      { user_id := r2.user_id, post_id := r2.post_id, viewed_at := t2
        time_spent_ms := r2.time_spent, interacted := r2.interacted }
      (h1 r2.user_id r2.post_id)

/-- Witness for C7: from an empty store, logging the same pair twice with
dwell times 1000 and then 5000 leaves exactly the one row of the second
call. -/
theorem view_log_upsert_witness :
    rowsFor
        (log_post_view
          (log_post_view []
            { post_id := "post1", time_spent := 1000, interacted := false
              user_id := "userA" } 1)
          { post_id := "post1", time_spent := 5000, interacted := true
            user_id := "userA" } 2)
        "userA" "post1"
      = [{ user_id := "userA", post_id := "post1", viewed_at := 2
           time_spent_ms := 5000, interacted := true }] :=
  view_log_upsert.2 []
    { post_id := "post1", time_spent := 1000, interacted := false, user_id := "userA" }
    { post_id := "post1", time_spent := 5000, interacted := true, user_id := "userA" }
    1 2 (fun u p => by simp [rowsFor]) rfl rfl (by decide)

/-- C8: a singular owner object and a one-element owner collection
normalize to the same owner fields, and an absent projection, which the
code receives as an empty collection and replaces with an empty
dictionary, normalizes to empty id and username, no avatar, and an
unverified flag.  The normalization is a total function, so none of these
shapes aborts the response. -/
theorem owner_normalization (d : OwnerDict) :
    formatOwner (OwnerProj.obj d) = formatOwner (OwnerProj.coll [d]) ∧
    formatOwner (OwnerProj.coll []) =
      { id := "", username := "", avatar_url := none, is_verified := false } :=
  ⟨rfl, rfl⟩

/-- C9 counterexample: a post with zero likes and zero comments scores
zero at age 0 hours and still zero at age 24 hours (now = 86400 seconds),
so the score is not strictly decreasing in age at fixed like and comment
counts. -/
theorem score_not_strictly_decreasing_in_age :
    calculate_engagement_score 0 stalePost = 0 ∧
    calculate_engagement_score 86400 stalePost = 0 ∧
    ¬ calculate_engagement_score 86400 stalePost < calculate_engagement_score 0 stalePost := by
  norm_num [calculate_engagement_score, stalePost, recency_multiplier]

/-- C9 amended: at a fixed nonnegative age the score is monotonically
non-decreasing in the like count and in the comment count; at fixed
counts the score is non-increasing in age, and strictly decreasing
whenever likes plus three times comments is positive — with zero
engagement the score is constantly zero, so strict decrease fails
there. -/
theorem score_monotonicity :
    (∀ (now : ℚ) (l l2 c : ℤ) (t : ℚ), t ≤ now → l ≤ l2 →
        calculate_engagement_score now (mkPost l c t) ≤
          calculate_engagement_score now (mkPost l2 c t)) ∧
    (∀ (now : ℚ) (l c c2 : ℤ) (t : ℚ), t ≤ now → c ≤ c2 →
        calculate_engagement_score now (mkPost l c t) ≤
          calculate_engagement_score now (mkPost l c2 t)) ∧
    (∀ (now : ℚ) (l c : ℤ) (t t2 : ℚ), 0 ≤ l → 0 ≤ c → t2 ≤ t → t ≤ now →
        calculate_engagement_score now (mkPost l c t2) ≤
          calculate_engagement_score now (mkPost l c t)) ∧
    (∀ (now : ℚ) (l c : ℤ) (t t2 : ℚ), 0 < l + c * 3 → t2 < t → t ≤ now →
        calculate_engagement_score now (mkPost l c t2) <
          calculate_engagement_score now (mkPost l c t)) := by
  refine ⟨?_, ?_, ?_, ?_⟩
  · intro now l l2 c t ht hl
    rw [score_mkPost, score_mkPost]
    have hage : (0 : ℚ) ≤ (now - t) / 3600 := div_nonneg (by linarith) (by norm_num)
    have hrm := recency_multiplier_pos hage
    have hcast : ((l : ℚ) + (c : ℚ) * 3) ≤ ((l2 : ℚ) + (c : ℚ) * 3) := by
      have : (l : ℚ) ≤ (l2 : ℚ) := by exact_mod_cast hl
      linarith
    exact mul_le_mul_of_nonneg_right hcast (le_of_lt hrm)
  · intro now l c c2 t ht hc
    rw [score_mkPost, score_mkPost]
    have hage : (0 : ℚ) ≤ (now - t) / 3600 := div_nonneg (by linarith) (by norm_num)
    have hrm := recency_multiplier_pos hage
    have hcast : ((l : ℚ) + (c : ℚ) * 3) ≤ ((l : ℚ) + (c2 : ℚ) * 3) := by
      have : (c : ℚ) ≤ (c2 : ℚ) := by exact_mod_cast hc
      linarith
    exact mul_le_mul_of_nonneg_right hcast (le_of_lt hrm)
  · intro now l c t t2 hl hc htt ht
    rw [score_mkPost, score_mkPost]
    have hage : (0 : ℚ) ≤ (now - t) / 3600 := div_nonneg (by linarith) (by norm_num)
    have hmono : recency_multiplier ((now - t2) / 3600) ≤
        recency_multiplier ((now - t) / 3600) :=
      recency_multiplier_le hage (by linarith)
    have hC : (0 : ℚ) ≤ (l : ℚ) + (c : ℚ) * 3 := by
      have h1 : (0 : ℚ) ≤ (l : ℚ) := by exact_mod_cast hl
      have h2 : (0 : ℚ) ≤ (c : ℚ) := by exact_mod_cast hc
      linarith
    exact mul_le_mul_of_nonneg_left hmono hC
  · intro now l c t t2 hpos htt ht
    rw [score_mkPost, score_mkPost]
    have hage : (0 : ℚ) ≤ (now - t) / 3600 := div_nonneg (by linarith) (by norm_num)
    have hmono : recency_multiplier ((now - t2) / 3600) <
        recency_multiplier ((now - t) / 3600) :=
      recency_multiplier_lt hage (by linarith)
    have hC : (0 : ℚ) < (l : ℚ) + (c : ℚ) * 3 := by exact_mod_cast hpos
    exact mul_lt_mul_of_pos_left hmono hC

/-- Witness for the amended C9: one like, zero comments, now at epoch
86400; the copy created at epoch 0 (age 24 hours) scores strictly below
the copy created at epoch 86400 (age 0 hours). -/
theorem score_monotonicity_witness :
    calculate_engagement_score 86400 (mkPost 1 0 0) <
      calculate_engagement_score 86400 (mkPost 1 0 86400) :=
  score_monotonicity.2.2.2 86400 1 0 86400 0 (by norm_num) (by norm_num) (le_refl 86400)

/-- C10: every successful response reports candidates evaluated equal to
total fetched (every fetched row is scored), both at most 50, and both at
most the limit of the query that served the batch - 20 for a non-discovery
strategy fetch, 50 for a discovery or fallback fetch - provided the store
honors row limits. -/
theorem algorithm_info_counts (env : FeedEnv) (henv : honestStore env)
    (request : FeedRequest) (p : PostRow) (o : FeedOwner) (strat : String) (ce tf : ℕ)
    (hresp : get_next_feed_post env request = FeedResponse.success p o strat ce tf) :
    ce = tf ∧ tf ≤ 50 ∧
      ∃ q : FetchQuery, (feedNextAux env request 0).servedBy = some q ∧
        tf ≤ q.fetchLimit ∧
        ((strat ≠ "discovery" ∧ q.fetchLimit = 20) ∨ q.fetchLimit = 50) := by
  unfold get_next_feed_post at hresp
  by_cases h0 : env.fetch (servedQueryOf env request 0) = []
  · by_cases hlen : 0 < request.exclude_ids.length
    · rw [feedNextAux_eq, if_pos h0, if_pos hlen] at hresp ⊢
      dsimp only at hresp ⊢
      rw [feedNextAux_of_empty] at hresp ⊢
      by_cases h1 :
          env.fetch
            (servedQueryOf env
              { exclude_ids := [], is_initial := false, user_id := request.user_id } 1)
            = []
      · rw [if_pos h1] at hresp
        simp at hresp
      · rw [if_neg h1] at hresp ⊢
        obtain ⟨hcetf, hle, hdisj⟩ := successResult_inv env henv _ 1 hresp
        refine ⟨hcetf, ?_, _, rfl, hle, hdisj⟩
        rcases hdisj with ⟨-, h20⟩ | h50
        · rw [h20] at hle
          omega
        · rw [h50] at hle
          exact hle
    · rw [feedNextAux_eq, if_pos h0, if_neg hlen] at hresp
      simp at hresp
  · rw [feedNextAux_eq, if_neg h0] at hresp ⊢
    obtain ⟨hcetf, hle, hdisj⟩ := successResult_inv env henv request 0 hresp
    refine ⟨hcetf, ?_, _, rfl, hle, hdisj⟩
    rcases hdisj with ⟨-, h20⟩ | h50
    · rw [h20] at hle
      omega
    · rw [h50] at hle
      exact hle

/-- Witness for C10 at the concrete one-row store: the popular strategy is
drawn, one row is fetched and scored, and the counts are both one, within
the limit 20 of the non-discovery strategy fetch. -/
theorem algorithm_info_counts_witness :
    (1 : ℕ) = 1 ∧ (1 : ℕ) ≤ 50 ∧
      ∃ q : FetchQuery,
        (feedNextAux oneRowEnv
            { exclude_ids := [], is_initial := false, user_id := none } 0).servedBy
          = some q ∧
        1 ≤ q.fetchLimit ∧
        (("popular" ≠ "discovery" ∧ q.fetchLimit = 20) ∨ q.fetchLimit = 50) :=
  algorithm_info_counts oneRowEnv oneRowEnv_honest
    { exclude_ids := [], is_initial := false, user_id := none } onePost
    { id := "o", username := "owner", avatar_url := none, is_verified := true }
    "popular" 1 1 oneRowEnv_response

end Sourced

